import Mathlib

/-!
Formal model of the cache-and-sync subsystem of a farmer-facing data
aggregator: the expiry-based cache store (`services/cache_manager.py`),
the weather fetch-or-cache service (`services/weather_service.py`), the
offline coordinator and sync queue (`services/offline_manager.py`), and
the connectivity monitor (`utils/connectivity.py`).

Tables of the underlying store are modelled as Lean lists kept in row
(insertion) order; timestamps are natural numbers (hours); payloads are
opaque natural numbers.  A live fetch is supplied to each service
operation as an `Option` parameter (`none` models a failed fetch), and a
storage-layer exception is modelled by a Boolean fault parameter on the
guarded operations, mirroring the `try/except` structure of the code.
-/

namespace FarmerApp

/-- Constant `WEATHER_CACHE_HOURS` from `config/settings.py` (default 6). -/
def WEATHER_CACHE_HOURS : Nat := 6

/-- Constant `MARKET_CACHE_HOURS` from `config/settings.py` (default 24). -/
def MARKET_CACHE_HOURS : Nat := 24

/-- A row of the `weather_data` table (`database/models.py`): location key,
forecast date, an opaque payload standing for the remaining weather
columns, and the cache timestamps. -/
structure WeatherData where
  latitude : Int
  longitude : Int
  forecast_date : Nat
  payload : Nat
  fetched_at : Nat
  expires_at : Nat
deriving DecidableEq, Repr

/-- A row of the `market_data` table (`database/models.py`). -/
structure MarketData where
  commodity : Nat
  state : Nat
  price_date : Nat
  payload : Nat
  fetched_at : Nat
  expires_at : Nat
deriving DecidableEq, Repr

/-- An input record for `cache_market_data` (a `market_dict` in the code). -/
structure MarketDict where
  commodity : Nat
  state : Nat
  price_date : Nat
  payload : Nat
deriving DecidableEq, Repr

/-- The filter of `CacheManager.get_cached_weather`: rows matching the
location key whose `expires_at > now`, optionally narrowed to one
`forecast_date`. -/
def weather_query (db : List WeatherData) (now : Nat) (lat lon : Int)
    (forecast_date : Option Nat) : List WeatherData :=
  db.filter (fun r =>
    decide (r.latitude = lat) && decide (r.longitude = lon) &&
    decide (now < r.expires_at) &&
    (match forecast_date with
     | none => true
     | some d => decide (r.forecast_date = d)))

/-- `CacheManager.get_cached_weather`: returns the matching fresh rows, or
`none` when there are no matching fresh rows (`results if results else None`). -/
def get_cached_weather (db : List WeatherData) (now : Nat) (lat lon : Int)
    (forecast_date : Option Nat) : Option (List WeatherData) :=
  let results := weather_query db now lat lon forecast_date
  if results.isEmpty then none else some results

/-- One inserted row of `CacheManager.cache_weather_data`: a weather dict is
the pair (forecast date, payload). -/
def mk_weather_row (lat lon : Int) (now expiry : Nat) (w : Nat × Nat) : WeatherData :=
  { latitude := lat, longitude := lon, forecast_date := w.1, payload := w.2,
    fetched_at := now, expires_at := expiry }

/-- `CacheManager.cache_weather_data`: computes `expires_at = now + TTL` once,
then appends one row per weather dict, all sharing that expiry. -/
def cache_weather_data (db : List WeatherData) (now : Nat) (lat lon : Int)
    (weather_list : List (Nat × Nat)) : List WeatherData :=
  let expiry := now + WEATHER_CACHE_HOURS
  db ++ weather_list.map (mk_weather_row lat lon now expiry)

/-- `CacheManager.cleanup_expired_weather_data`: deletes the rows with
`expires_at <= now` and reports how many were deleted. -/
def cleanup_expired_weather_data (db : List WeatherData) (now : Nat) :
    List WeatherData × Nat :=
  let deleted := db.filter (fun r => decide (r.expires_at ≤ now))
  (db.filter (fun r => !decide (r.expires_at ≤ now)), deleted.length)

/-- `CacheManager.cache_market_data`: computes `expires_at = now + TTL` once,
then appends one row per market dict, all sharing that expiry. -/
def cache_market_data (db : List MarketData) (now : Nat)
    (market_data_list : List MarketDict) : List MarketData :=
  let expiry := now + MARKET_CACHE_HOURS
  db ++ market_data_list.map (fun m =>
    { commodity := m.commodity, state := m.state, price_date := m.price_date,
      payload := m.payload, fetched_at := now, expires_at := expiry })

/-- `WeatherService._convert_cached_to_dict`, reduced to the opaque payload. -/
def convert_cached_to_dict (r : WeatherData) : Nat := r.payload

/-- The fetch-and-fallback tail of `WeatherService.get_current_weather`
(lines 49-63): on fetch success cache and return the fetched payload; on
fetch failure re-query the cache without the date filter and serve the
first row, else return nothing. -/
def current_weather_fetch (db : List WeatherData) (now : Nat) (lat lon : Int)
    (fetched : Option (Nat × Nat)) : Option Nat × List WeatherData :=
  match fetched with
  | some w => (some w.2, cache_weather_data db now lat lon [w])
  | none =>
    match get_cached_weather db now lat lon none with
    | some (c :: _) => (some (convert_cached_to_dict c), db)
    | _ => (none, db)

/-- `WeatherService.get_current_weather`, with the live fetch result supplied
as a parameter (`none` models a failed fetch).  Returns the reported payload
and the resulting weather table. -/
def get_current_weather (db : List WeatherData) (now today : Nat) (lat lon : Int)
    (fetched : Option (Nat × Nat)) (force_refresh : Bool) :
    Option Nat × List WeatherData :=
  if !force_refresh then
    match get_cached_weather db now lat lon (some today) with
    | some (c :: _) => (some (convert_cached_to_dict c), db)
    | _ => current_weather_fetch db now lat lon fetched
  else current_weather_fetch db now lat lon fetched

/-- The fetch branch of `WeatherService.get_forecast` (lines 93-101): on
success cache the fetched records and return their payloads, else nothing. -/
def forecast_fetch (db : List WeatherData) (now : Nat) (lat lon : Int)
    (fetched : Option (List (Nat × Nat))) :
    Option (List Nat) × List WeatherData :=
  match fetched with
  | some ws => (some (ws.map (fun w => w.2)), cache_weather_data db now lat lon ws)
  | none => (none, db)

/-- `WeatherService.get_forecast`: caps `days` at 7, serves the cache only
when at least `days` fresh rows exist for the key, else refetches. -/
def get_forecast (db : List WeatherData) (now : Nat) (lat lon : Int)
    (days : Nat) (fetched : Option (List (Nat × Nat))) (force_refresh : Bool) :
    Option (List Nat) × List WeatherData :=
  let days := min days 7
  if !force_refresh then
    match get_cached_weather db now lat lon none with
    | some cached =>
      if days ≤ cached.length then
        (some ((cached.take days).map convert_cached_to_dict), db)
      else forecast_fetch db now lat lon fetched
    | _ => forecast_fetch db now lat lon fetched
  else forecast_fetch db now lat lon fetched

/-- Status column of the `sync_queue` table. -/
inductive SyncStatus where
  | pending
  | syncing
  | completed
  | failed
deriving DecidableEq, Repr

/-- A row of the `sync_queue` table (`database/models.py`); `entity_type`,
`action` and `payload` are opaque identifiers. -/
structure SyncItem where
  id : Nat
  entity_type : Nat
  entity_id : Nat
  action : Nat
  payload : Nat
  status : SyncStatus
  retry_count : Nat
  created_at : Nat
  synced_at : Option Nat
deriving DecidableEq, Repr

/-- Autoincrement primary key: one more than the largest id in the table. -/
def next_id (db : List SyncItem) : Nat :=
  (db.map (fun it => it.id)).foldr max 0 + 1

/-- `OfflineManager.queue_for_sync`: appends a fresh `pending` item with
`retry_count = 0` and the current creation time. -/
def queue_for_sync (db : List SyncItem) (now etype eid act pl : Nat) :
    List SyncItem :=
  db ++ [{ id := next_id db, entity_type := etype, entity_id := eid,
           action := act, payload := pl, status := SyncStatus.pending,
           retry_count := 0, created_at := now, synced_at := none }]

/-- `OfflineManager.get_pending_syncs`: all rows with status `pending`, in
row order. -/
def get_pending_syncs (db : List SyncItem) : List SyncItem :=
  db.filter (fun it => decide (it.status = SyncStatus.pending))

/-- The per-item update of `OfflineManager.mark_sync_as_failed`: increment
`retry_count`; if it reached `retry_limit` the status becomes `failed`,
else it returns to `pending`. -/
def fail_update (retry_limit : Nat) (it : SyncItem) : SyncItem :=
  let rc := it.retry_count + 1
  if retry_limit ≤ rc then { it with retry_count := rc, status := SyncStatus.failed }
  else { it with retry_count := rc, status := SyncStatus.pending }

/-- Update of the first row with the given primary key (`filter_by(id=...).first()`). -/
def update_first (db : List SyncItem) (sync_id : Nat) (f : SyncItem → SyncItem) :
    List SyncItem :=
  match db with
  | [] => []
  | it :: rest =>
    if it.id = sync_id then f it :: rest
    else it :: update_first rest sync_id f

/-- `OfflineManager.mark_sync_as_failed` over the whole table. -/
def mark_sync_as_failed (db : List SyncItem) (sync_id retry_limit : Nat) :
    List SyncItem :=
  update_first db sync_id (fail_update retry_limit)

/-- Iterated `fail` calls on one item. -/
def fail_iter (retry_limit : Nat) : Nat → SyncItem → SyncItem
  | 0, it => it
  | k + 1, it => fail_iter retry_limit k (fail_update retry_limit it)

/-- Combined mutable state of the offline coordinator: the in-memory
`ConnectivityManager.is_online`, the in-memory `OfflineManager.is_offline`,
and the persisted `UserSettings.offline_mode` flag. -/
structure OfflineState where
  conn_online : Bool
  is_offline : Bool
  offline_mode : Bool
deriving DecidableEq, Repr

/-- Initial state: `ConnectivityManager.is_online = False`,
`OfflineManager.is_offline = False`, `UserSettings.offline_mode` default `False`. -/
def initial_offline_state : OfflineState :=
  { conn_online := false, is_offline := false, offline_mode := false }

/-- `OfflineManager.is_in_offline_mode`: returns the in-memory flag. -/
def is_in_offline_mode (s : OfflineState) : Bool := s.is_offline

/-- `OfflineManager.enable_offline_mode`: persists `offline_mode = True` and
sets the in-memory flag. -/
def enable_offline_mode (s : OfflineState) : OfflineState :=
  { s with offline_mode := true, is_offline := true }

/-- `OfflineManager.disable_offline_mode`. -/
def disable_offline_mode (s : OfflineState) : OfflineState :=
  { s with offline_mode := false, is_offline := false }

/-- One iteration of `OfflineManager._monitor_connectivity` with probe
outcome `probe`: `is_online(5)` runs `check_connectivity`, which leaves
`ConnectivityManager.is_online = probe`; the manager then flips its own
`is_offline` flag on an observed transition. -/
def monitor_step (s : OfflineState) (probe : Bool) : OfflineState :=
  let was_online := !s.is_offline
  let s1 : OfflineState := { s with conn_online := probe }
  if was_online && !probe then { s1 with is_offline := true }
  else if !was_online && probe then { s1 with is_offline := false }
  else s1

/-- Modelled from the spec: `effective_offline()` =
`manual_offline_flag OR NOT monitor.is_online`; the code has no such
combinator, so this is the spec-side definition compared against
`is_in_offline_mode`. -/
def effective_offline_spec (s : OfflineState) : Bool :=
  s.offline_mode || !s.conn_online

/-- State of `ConnectivityManager`, extended with a log of every callback
invocation performed by `_notify_connectivity_change` (pairs of callback
identifier and the Boolean it was called with). -/
structure ConnState where
  is_online : Bool
  callbacks : List Nat
  log : List (Nat × Bool)
deriving DecidableEq, Repr

/-- `ConnectivityManager._notify_connectivity_change`: invokes every
registered callback once, in registration order, with the new state. -/
def notify_connectivity_change (s : ConnState) (b : Bool) : ConnState :=
  { s with log := s.log ++ s.callbacks.map (fun cb => (cb, b)) }

/-- `ConnectivityManager.check_connectivity` with probe outcome `probe`
(`true` = the socket connection succeeded): flips `is_online` and notifies
only on a transition; returns the probe outcome. -/
def check_connectivity (s : ConnState) (probe : Bool) : Bool × ConnState :=
  if probe then
    if !s.is_online then
      (true, notify_connectivity_change { s with is_online := true } true)
    else (true, s)
  else
    if s.is_online then
      (false, notify_connectivity_change { s with is_online := false } false)
    else (false, s)

/-- Run a sequence of probes, keeping the final state. -/
def run_probes (s : ConnState) : List Bool → ConnState
  | [] => s
  | p :: ps => run_probes (check_connectivity s p).2 ps

/-- Run a sequence of probes, collecting the values returned to callers. -/
def run_probes_returns (s : ConnState) : List Bool → List Bool
  | [] => []
  | p :: ps =>
    (check_connectivity s p).1 :: run_probes_returns (check_connectivity s p).2 ps

/-- Number of entries of the invocation log equal to `(cb, b)`. -/
def count_log (cb : Nat) (b : Bool) : List (Nat × Bool) → Nat
  | [] => 0
  | e :: l => (if e = (cb, b) then 1 else 0) + count_log cb b l

/-- Number of occurrences of `cb` in a callback list. -/
def count_cb (cb : Nat) : List Nat → Nat
  | [] => 0
  | c :: l => (if c = cb then 1 else 0) + count_cb cb l

/-- Number of observed state transitions to value `b` along a probe
sequence, starting from observed state `cur` (each probe leaves the
observed state equal to its outcome). -/
def count_transitions_to (b cur : Bool) : List Bool → Nat
  | [] => 0
  | p :: ps => (if p = b ∧ p ≠ cur then 1 else 0) + count_transitions_to b p ps

/-- `ConnectivityManager.register_callback`: appends the callback only when
it is not already registered. -/
def register_callback (s : ConnState) (cb : Nat) : ConnState :=
  if cb ∈ s.callbacks then s else { s with callbacks := s.callbacks ++ [cb] }

/-- `OfflineManager.register_sync_callback` on its callback list: appends
only when not already present. -/
def register_sync_callback (cbs : List Nat) (cb : Nat) : List Nat :=
  if cb ∈ cbs then cbs else cbs ++ [cb]

/-- Cache store of the four kinds; soil and recommendation rows are opaque
since only their counts matter here. -/
structure CacheStore where
  soil : List Nat
  weather : List WeatherData
  market : List MarketData
  recommendation : List Nat
deriving DecidableEq, Repr

/-- `CacheManager.get_cache_stats`: per-kind row counts as an association
list; `err = true` models a storage-layer exception inside the `try`
block, on which the code returns the empty mapping. -/
def get_cache_stats (err : Bool) (store : CacheStore) : List (String × Nat) :=
  if err then []
  else
    let s := store.soil.length
    let w := store.weather.length
    let m := store.market.length
    let r := store.recommendation.length
    [("soil_entries", s), ("weather_entries", w), ("market_entries", m),
     ("recommendation_entries", r), ("total_entries", s + w + m + r)]

/-- `OfflineManager.get_sync_stats`: per-status counts; empty mapping on a
storage error. -/
def get_sync_stats (err : Bool) (db : List SyncItem) : List (String × Nat) :=
  if err then []
  else
    [("total", db.length),
     ("pending", (get_pending_syncs db).length),
     ("syncing", (db.filter (fun it => decide (it.status = SyncStatus.syncing))).length),
     ("completed", (db.filter (fun it => decide (it.status = SyncStatus.completed))).length),
     ("failed", (db.filter (fun it => decide (it.status = SyncStatus.failed))).length)]

/-- `OfflineManager.get_pending_syncs` with its `try/except` wrapper: a
storage error yields the empty list instead of an exception. -/
def get_pending_syncs_guarded (err : Bool) (db : List SyncItem) : List SyncItem :=
  if err then [] else get_pending_syncs db

/-- `OfflineManager.queue_for_sync` with its `try/except` wrapper: a storage
error leaves the table unchanged (nothing is committed) and raises nothing. -/
def queue_for_sync_guarded (err : Bool) (db : List SyncItem)
    (now etype eid act pl : Nat) : List SyncItem :=
  if err then db else queue_for_sync db now etype eid act pl

/-- `OfflineManager.mark_sync_as_failed` with its `try/except` wrapper. -/
def mark_sync_as_failed_guarded (err : Bool) (db : List SyncItem)
    (sync_id retry_limit : Nat) : List SyncItem :=
  if err then db else mark_sync_as_failed db sync_id retry_limit

/-! ## Helper lemmas -/

lemma fail_update_retry (rl : Nat) (it : SyncItem) :
    (fail_update rl it).retry_count = it.retry_count + 1 := by
  unfold fail_update
  dsimp only
  split <;> rfl

lemma fail_update_failed_iff (rl : Nat) (it : SyncItem) :
    (fail_update rl it).status = SyncStatus.failed ↔ rl ≤ it.retry_count + 1 := by
  unfold fail_update
  dsimp only
  split <;> simp <;> omega

lemma fail_update_pending_iff (rl : Nat) (it : SyncItem) :
    (fail_update rl it).status = SyncStatus.pending ↔ it.retry_count + 1 < rl := by
  unfold fail_update
  dsimp only
  split <;> simp <;> omega

lemma fail_iter_retry (rl : Nat) : ∀ (k : Nat) (it : SyncItem),
    (fail_iter rl k it).retry_count = it.retry_count + k := by
  intro k
  induction k with
  | zero => intro it; simp [fail_iter]
  | succ k ih =>
    intro it
    simp only [fail_iter]
    rw [ih, fail_update_retry]
    omega

lemma fail_iter_pending (rl : Nat) : ∀ (k : Nat) (it : SyncItem), 1 ≤ k →
    it.retry_count + k < rl → (fail_iter rl k it).status = SyncStatus.pending := by
  intro k
  induction k with
  | zero => intro it h1 _; exact absurd h1 (by decide)
  | succ k ih =>
    intro it h1 h2
    simp only [fail_iter]
    rcases Nat.eq_zero_or_pos k with h0 | hpos
    · subst h0
      simp only [fail_iter]
      rw [fail_update_pending_iff]
      omega
    · exact ih (fail_update rl it) hpos (by rw [fail_update_retry]; omega)

lemma fail_iter_failed (rl : Nat) : ∀ (k : Nat) (it : SyncItem), 1 ≤ k →
    rl ≤ it.retry_count + k → (fail_iter rl k it).status = SyncStatus.failed := by
  intro k
  induction k with
  | zero => intro it h1 _; exact absurd h1 (by decide)
  | succ k ih =>
    intro it h1 h2
    simp only [fail_iter]
    rcases Nat.eq_zero_or_pos k with h0 | hpos
    · subst h0
      simp only [fail_iter]
      rw [fail_update_failed_iff]
      omega
    · exact ih (fail_update rl it) hpos (by rw [fail_update_retry]; omega)

lemma count_log_append (cb : Nat) (b : Bool) (l1 l2 : List (Nat × Bool)) :
    count_log cb b (l1 ++ l2) = count_log cb b l1 + count_log cb b l2 := by
  induction l1 with
  | nil => simp [count_log]
  | cons e l ih => simp [count_log, ih, Nat.add_assoc]

lemma count_log_map (cb : Nat) (b v : Bool) (l : List Nat) :
    count_log cb b (l.map (fun c => (c, v))) =
      if v = b then count_cb cb l else 0 := by
  induction l with
  | nil => simp [count_log, count_cb]
  | cons c l ih =>
    by_cases hv : v = b
    · subst hv
      by_cases hc : c = cb <;> simp [count_log, count_cb, ih, Prod.ext_iff, hc]
    · by_cases hc : c = cb <;> simp [count_log, count_cb, ih, Prod.ext_iff, hv, hc]

lemma run_probes_log_count (cb : Nat) (b : Bool) : ∀ (ps : List Bool) (s : ConnState),
    count_log cb b (run_probes s ps).log =
      count_log cb b s.log +
        count_cb cb s.callbacks * count_transitions_to b s.is_online ps := by
  intro ps
  induction ps with
  | nil => intro s; simp [run_probes, count_transitions_to]
  | cons p ps ih =>
    intro s
    rcases s with ⟨onl, cbs, log⟩
    cases p <;> cases onl <;>
      simp [run_probes, check_connectivity, notify_connectivity_change,
        count_transitions_to, ih, count_log_append, count_log_map] <;>
      cases b <;> simp [Nat.mul_add] <;> ring

lemma run_probes_returns_eq (ps : List Bool) : ∀ s, run_probes_returns s ps = ps := by
  induction ps with
  | nil => intro s; rfl
  | cons p ps ih =>
    intro s
    rcases s with ⟨onl, cbs, log⟩
    cases p <;> cases onl <;> simp [run_probes_returns, check_connectivity, ih]

lemma count_cb_eq_zero_of_not_mem (cb : Nat) : ∀ (l : List Nat), cb ∉ l →
    count_cb cb l = 0 := by
  intro l
  induction l with
  | nil => intro _; rfl
  | cons c l ih =>
    intro h
    have hc : c ≠ cb := fun he => h (by simp [he])
    have hl : cb ∉ l := fun hm => h (by simp [hm])
    simp [count_cb, hc, ih hl]

lemma count_cb_le_one_of_nodup (cb : Nat) : ∀ (l : List Nat), l.Nodup →
    count_cb cb l ≤ 1 := by
  intro l
  induction l with
  | nil => intro _; simp [count_cb]
  | cons c l ih =>
    intro h
    rw [List.nodup_cons] at h
    by_cases hc : c = cb
    · subst hc
      simp [count_cb, count_cb_eq_zero_of_not_mem c l h.1]
    · simp [count_cb, hc]
      exact ih h.2

/-! ## Claims -/

/-- A weather row used to exhibit the behaviour of the stale fallback: it
matches the key `(0, 0)` but is expired at time 10. -/
def c1_row : WeatherData :=
  { latitude := 0, longitude := 0, forecast_date := 0, payload := 42,
    fetched_at := 0, expires_at := 5 }

/-- C1: with the live fetch failing and the cache holding only an expired
row for the key, `get_current_weather` returns nothing — the fallback
re-query goes through `get_cached_weather`, which still filters
`expires_at > now`, so an expired entry is never served, contrary to the
stale-fallback behaviour stated for the fallback path. -/
theorem C1_expired_fallback_unreachable :
    (c1_row ∈ [c1_row] ∧ c1_row.latitude = 0 ∧ c1_row.longitude = 0 ∧
      c1_row.expires_at ≤ 10) ∧
    get_current_weather [c1_row] 10 10 0 0 none false = (none, [c1_row]) := by
  exact ⟨⟨List.mem_singleton_self _, rfl, rfl, by decide⟩, rfl⟩

/-- C2 counterexample: starting from the initial state, enable manual
offline mode and let the monitor observe one successful probe; the system
then reports online (`is_in_offline_mode = false`) although the persisted
manual flag is still set, so the reported value differs from
`manual_offline_flag OR NOT measured-online`. -/
theorem C2_counterexample :
    is_in_offline_mode (monitor_step (enable_offline_mode initial_offline_state) true)
      = false ∧
    effective_offline_spec (monitor_step (enable_offline_mode initial_offline_state) true)
      = true := by
  exact ⟨rfl, rfl⟩

/-- C2 (amended): `is_in_offline_mode` reports only the in-memory
`is_offline` flag.  `enable_offline_mode` sets it (and persists the manual
flag), so the system reports offline only until the next monitor probe:
after one probe the report equals the negation of the probe outcome — a
successful probe resets the report to online even though the persisted
manual flag remains set. -/
theorem C2_manual_offline_overridden_by_probe (s : OfflineState) :
    is_in_offline_mode (enable_offline_mode s) = true ∧
    (enable_offline_mode s).offline_mode = true ∧
    (∀ p, is_in_offline_mode (monitor_step (enable_offline_mode s) p) = !p) ∧
    (∀ p, (monitor_step (enable_offline_mode s) p).offline_mode = true) := by
  refine ⟨rfl, rfl, ?_, ?_⟩ <;> intro p <;> cases p <;> rfl

/-- C3: each `fail` call increments `retry_count` by exactly one and the
new status is `failed` exactly when the incremented count reached
`retry_limit`, else `pending`; `mark_sync_as_failed` applies exactly this
update to the addressed row and leaves the others unchanged; starting from
`retry_count = 0`, the item stays `pending` through the first
`retry_limit - 1` `fail` calls and becomes `failed` on call number
`retry_limit`. -/
theorem C3_retry_state_machine (retry_limit : Nat) (it : SyncItem)
    (h1 : 1 ≤ retry_limit) (h0 : it.retry_count = 0) :
    (∀ rl j, (fail_update rl j).retry_count = j.retry_count + 1) ∧
    (∀ rl j, (fail_update rl j).status = SyncStatus.failed ↔ rl ≤ j.retry_count + 1) ∧
    (∀ rl j, (fail_update rl j).status = SyncStatus.pending ↔ j.retry_count + 1 < rl) ∧
    (∀ rl (j : SyncItem) rest, mark_sync_as_failed (j :: rest) j.id rl =
      fail_update rl j :: rest) ∧
    (∀ k, (fail_iter retry_limit k it).retry_count = k) ∧
    (∀ k, 1 ≤ k → k < retry_limit →
      (fail_iter retry_limit k it).status = SyncStatus.pending) ∧
    (fail_iter retry_limit retry_limit it).status = SyncStatus.failed := by
  refine ⟨fun rl j => fail_update_retry rl j,
    fun rl j => fail_update_failed_iff rl j,
    fun rl j => fail_update_pending_iff rl j,
    ?_, ?_, ?_, ?_⟩
  · intro rl j rest
    simp [mark_sync_as_failed, update_first]
  · intro k
    rw [fail_iter_retry, h0]
    omega
  · intro k hk hlt
    exact fail_iter_pending retry_limit k it hk (by omega)
  · exact fail_iter_failed retry_limit retry_limit it h1 (by omega)

/-- A sync item freshly enqueued, with `retry_count = 0`. -/
def sample_item : SyncItem :=
  { id := 1, entity_type := 0, entity_id := 0, action := 0, payload := 0,
    status := SyncStatus.pending, retry_count := 0, created_at := 0,
    synced_at := none }

/-- Witness for C3 with `retry_limit = 3`: two `fail` calls leave the item
`pending`, the third makes it `failed` with `retry_count = 3`. -/
theorem C3_retry_state_machine_witness :
    (fail_iter 3 1 sample_item).status = SyncStatus.pending ∧
    (fail_iter 3 2 sample_item).status = SyncStatus.pending ∧
    (fail_iter 3 3 sample_item).status = SyncStatus.failed ∧
    (fail_iter 3 3 sample_item).retry_count = 3 := by
  have h := C3_retry_state_machine 3 sample_item (by decide) (by rfl)
  exact ⟨h.2.2.2.2.2.1 1 (by decide) (by decide),
    h.2.2.2.2.2.1 2 (by decide) (by decide),
    h.2.2.2.2.2.2,
    h.2.2.2.2.1 3⟩

/-- C4: `get_pending_syncs` returns exactly the rows with status `pending`,
as a sublist of the table (hence in row order); when the table is ordered
by `created_at` — the invariant maintained by `queue_for_sync`, which
appends at enqueue time — the returned list is FIFO by `created_at`, so a
drain processing it front to back respects enqueue order. -/
theorem C4_pending_fifo (db : List SyncItem)
    (hs : db.Pairwise (fun a b => a.created_at ≤ b.created_at)) :
    (∀ it, it ∈ get_pending_syncs db ↔ it ∈ db ∧ it.status = SyncStatus.pending) ∧
    (get_pending_syncs db).Sublist db ∧
    (get_pending_syncs db).Pairwise (fun a b => a.created_at ≤ b.created_at) ∧
    (∀ now etype eid act pl, (∀ it ∈ db, it.created_at ≤ now) →
      (queue_for_sync db now etype eid act pl).Pairwise
        (fun a b => a.created_at ≤ b.created_at)) := by
  refine ⟨?_, ?_, ?_, ?_⟩
  · intro it
    simp [get_pending_syncs, List.mem_filter]
  · exact List.filter_sublist db
  · exact hs.sublist (List.filter_sublist db)
  · intro now etype eid act pl hle
    unfold queue_for_sync
    rw [List.pairwise_append]
    refine ⟨hs, List.pairwise_singleton _ _, ?_⟩
    intro a ha b hb
    simp only [List.mem_singleton] at hb
    subst hb
    exact hle a ha

/-- Three sync items enqueued for the same entity at times 1, 2, 3, with
payloads 100, 200, 300 standing for mutations A, B, C. -/
def sync_db_abc : List SyncItem :=
  queue_for_sync (queue_for_sync (queue_for_sync [] 1 7 1 0 100) 2 7 1 0 200)
    3 7 1 0 300

/-- Witness for C4: on the A, B, C table the pending list is an ordered
sublist sorted by `created_at`, and drains as A, B, C. -/
theorem C4_pending_fifo_witness :
    (get_pending_syncs sync_db_abc).Sublist sync_db_abc ∧
    (get_pending_syncs sync_db_abc).Pairwise
      (fun a b => a.created_at ≤ b.created_at) ∧
    (get_pending_syncs sync_db_abc).map (fun it => it.payload) = [100, 200, 300] := by
  have h := C4_pending_fifo sync_db_abc (by decide)
  exact ⟨h.2.1, h.2.2.1, by rfl⟩

/-- C5: along any probe sequence, a callback registered exactly once is
invoked with value `b` exactly once per observed transition to `b` and
never on a probe that re-observes the current state; each probe's return
value is exactly its reachability outcome. -/
theorem C5_callbacks_fire_once_per_transition (s : ConnState) (ps : List Bool)
    (cb : Nat) (b : Bool) (hcb : count_cb cb s.callbacks = 1) (hlog : s.log = []) :
    count_log cb b (run_probes s ps).log = count_transitions_to b s.is_online ps ∧
    run_probes_returns s ps = ps := by
  constructor
  · rw [run_probes_log_count, hlog, hcb]
    simp [count_log]
  · exact run_probes_returns_eq ps s

/-- A connectivity manager that starts offline with one registered callback. -/
def conn0 : ConnState := { is_online := false, callbacks := [7], log := [] }

/-- Witness for C5: three consecutive successful probes from the offline
state invoke the callback with `true` exactly once, and every probe
returns `true`. -/
theorem C5_callbacks_fire_once_per_transition_witness :
    count_log 7 true (run_probes conn0 [true, true, true]).log = 1 ∧
    run_probes_returns conn0 [true, true, true] = [true, true, true] := by
  have h := C5_callbacks_fire_once_per_transition conn0 [true, true, true] 7 true
    (by decide) (by rfl)
  exact ⟨h.1.trans (by decide), h.2⟩

/-- C6: with fewer fresh cache rows for the key than the requested number
of days (`days ≤ 7`), `get_forecast` ignores the partial cache and takes
the live-refetch branch. -/
theorem C6_partial_cache_is_full_miss (db : List WeatherData) (now : Nat)
    (lat lon : Int) (days : Nat) (fetched : Option (List (Nat × Nat)))
    (h7 : days ≤ 7) (hmiss : (weather_query db now lat lon none).length < days) :
    get_forecast db now lat lon days fetched false =
      forecast_fetch db now lat lon fetched := by
  by_cases he : (weather_query db now lat lon none).isEmpty = true
  · simp [get_forecast, get_cached_weather, he]
  · have hm : ¬ (min days 7 ≤ (weather_query db now lat lon none).length) := by
      rw [Nat.min_eq_left h7]
      omega
    simp [get_forecast, get_cached_weather, he, hm]

/-- Two fresh cache rows for key `(0, 0)` at time 0. -/
def c6_db : List WeatherData :=
  [{ latitude := 0, longitude := 0, forecast_date := 1, payload := 11,
     fetched_at := 0, expires_at := 10 },
   { latitude := 0, longitude := 0, forecast_date := 2, payload := 12,
     fetched_at := 0, expires_at := 10 }]

/-- Witness for C6: two fresh rows, three days requested: the cache is
treated as a miss and the fetch branch is taken. -/
theorem C6_partial_cache_is_full_miss_witness :
    (weather_query c6_db 0 0 0 none).length < 3 ∧
    get_forecast c6_db 0 0 0 3 none false = forecast_fetch c6_db 0 0 0 none :=
  ⟨by decide, C6_partial_cache_is_full_miss c6_db 0 0 0 3 none (by decide) (by decide)⟩

/-- C7: one cache write appends exactly one row per payload, every appended
row carries the single batch expiry `now + TTL(kind)`, and every
pre-existing row (this key's and every other's) is left unchanged — for
both the weather and the market cache. -/
theorem C7_batch_shared_expiry_append_only (db : List WeatherData) (now : Nat)
    (lat lon : Int) (ws : List (Nat × Nat)) (mdb : List MarketData)
    (ms : List MarketDict) :
    (cache_weather_data db now lat lon ws).take db.length = db ∧
    (cache_weather_data db now lat lon ws).length = db.length + ws.length ∧
    ((cache_weather_data db now lat lon ws).drop db.length).all
      (fun r => decide (r.expires_at = now + WEATHER_CACHE_HOURS)) = true ∧
    (cache_market_data mdb now ms).take mdb.length = mdb ∧
    (cache_market_data mdb now ms).length = mdb.length + ms.length ∧
    ((cache_market_data mdb now ms).drop mdb.length).all
      (fun r => decide (r.expires_at = now + MARKET_CACHE_HOURS)) = true := by
  unfold cache_weather_data cache_market_data
  dsimp only
  refine ⟨?_, ?_, ?_, ?_, ?_, ?_⟩
  · exact List.take_left db _
  · simp
  · rw [List.drop_left]
    simp only [List.all_eq_true, List.mem_map, Prod.exists]
    intro x hx
    rcases hx with ⟨a, b, _, hx⟩
    subst hx
    exact decide_eq_true rfl
  · exact List.take_left mdb _
  · simp
  · rw [List.drop_left]
    simp [List.all_eq_true]

/-- C8: every row returned by `get_cached_weather` (with or without a date
refinement) is fresh, so an entry with `now >= expires_at` is never
returned; and the sweep keeps exactly the fresh rows — it deletes every
expired row and no unexpired one. -/
theorem C8_expired_never_read_sweep_exact (db : List WeatherData) (now : Nat)
    (lat lon : Int) (fd : Option Nat) :
    ((get_cached_weather db now lat lon fd).getD []).all
      (fun r => decide (now < r.expires_at)) = true ∧
    (cleanup_expired_weather_data db now).1 =
      db.filter (fun r => decide (now < r.expires_at)) := by
  constructor
  · rw [get_cached_weather]
    split
    · rfl
    · simp only [Option.getD_some, List.all_eq_true]
      intro r hr
      simp only [weather_query, List.mem_filter, Bool.and_eq_true,
        decide_eq_true_eq] at hr
      simpa using hr.2.1.2
  · unfold cleanup_expired_weather_data
    dsimp only
    apply List.filter_congr
    intro a _
    rw [← decide_not]
    exact decide_eq_decide.mpr (by omega)

/-- C9: a storage-layer error (`err = true`, the `except` path of each
operation) never propagates: reads return the empty list, stats return the
empty mapping, and the mutating queue operations leave the table
unchanged. -/
theorem C9_storage_errors_return_neutral (db : List SyncItem) (store : CacheStore)
    (now etype eid act pl sync_id retry_limit : Nat) :
    get_pending_syncs_guarded true db = [] ∧
    get_cache_stats true store = [] ∧
    get_sync_stats true db = [] ∧
    queue_for_sync_guarded true db now etype eid act pl = db ∧
    mark_sync_as_failed_guarded true db sync_id retry_limit = db :=
  ⟨rfl, rfl, rfl, rfl, rfl⟩

/-- C10: registering an already-registered callback leaves the callback
list unchanged (both in the connectivity manager and in the offline
manager), registration preserves distinctness of the list, a distinct
callback occurs at most once, and one notification then invokes it at most
once. -/
theorem C10_no_duplicate_registration (s : ConnState) (cbs : List Nat) (cb : Nat) :
    register_callback (register_callback s cb) cb = register_callback s cb ∧
    register_sync_callback (register_sync_callback cbs cb) cb =
      register_sync_callback cbs cb ∧
    (s.callbacks.Nodup → (register_callback s cb).callbacks.Nodup) ∧
    (cbs.Nodup → (register_sync_callback cbs cb).Nodup) ∧
    (∀ l : List Nat, l.Nodup → count_cb cb l ≤ 1) ∧
    (∀ b, count_cb cb s.callbacks ≤ 1 →
      count_log cb b (notify_connectivity_change s b).log ≤
        count_log cb b s.log + 1) := by
  refine ⟨?_, ?_, ?_, ?_, fun l hl => count_cb_le_one_of_nodup cb l hl, ?_⟩
  · by_cases hm : cb ∈ s.callbacks <;> simp [register_callback, hm]
  · by_cases hm : cb ∈ cbs <;> simp [register_sync_callback, hm]
  · intro hnd
    by_cases hm : cb ∈ s.callbacks <;>
      simp [register_callback, hm, List.nodup_append, hnd]
  · intro hnd
    by_cases hm : cb ∈ cbs <;>
      simp [register_sync_callback, hm, List.nodup_append, hnd]
  · intro b hle
    rw [notify_connectivity_change]
    dsimp only
    rw [count_log_append, count_log_map]
    simp
    omega

/-- Witness for C10: registering callback 7 twice on a manager that
already holds it changes nothing, the list stays duplicate-free, and one
notification adds at most one invocation of it to the log. -/
theorem C10_no_duplicate_registration_witness :
    register_callback (register_callback conn0 7) 7 = register_callback conn0 7 ∧
    (register_callback conn0 7).callbacks.Nodup ∧
    count_log 7 true (notify_connectivity_change conn0 true).log ≤
      count_log 7 true conn0.log + 1 := by
  have h := C10_no_duplicate_registration conn0 [5] 7
  exact ⟨h.1, h.2.2.1 (by decide), h.2.2.2.2.2 true (by decide)⟩

end FarmerApp
